import Mathlib

/-!
Shallow embedding of `src/src/main.cpp` from the LoRaWAN-Bin-Sensor
repository: the uplink submitter `do_send`, the event reactor `onEvent`,
and the battery sampler `readVcc`, together with the observable side
effects they perform (serial logging, power-down sleeps, timed-callback
registration, MAC-layer calls).
-/

namespace BinSensor

/-- Fixed sleep-chunk duration in seconds: the source's only sleep call is
`LowPower.powerDown(SLEEP_8S, ADC_OFF, BOD_OFF)`, an 8-second power-down. -/
def chunkSize : Nat := 8

/-- `const unsigned TX_INTERVAL = 20;` (main.cpp line 63). -/
def TX_INTERVAL : Nat := 20

/-- The interval decomposition computed at main.cpp lines 157-158:
`times = interval / 8; rest = interval % 8;` (the source applies it to the
constant `TX_INTERVAL`; C++ unsigned division and remainder on non-negative
operands agree with `Nat.div` and `Nat.mod`). -/
def decompose (interval : Nat) : Nat × Nat :=
  (interval / 8, interval % 8)

/-- Observable side effects of the embedded code, in program order.
`logTime`, `log` and `logNat` are `Serial.print` and `Serial.println` calls;
`sleep8` is `LowPower.powerDown(SLEEP_8S, ADC_OFF, BOD_OFF)`;
`scheduleAt d` is `os_setTimedCallback(&sendjob, os_getTime() + sec2osticks d, do_send)`;
`setLinkCheck b` is `LMIC_setLinkCheckMode`; `enqueue port bytes len conf` is
`LMIC_setTxData2(port, payload, len, conf)` with `bytes` the first `len`
buffer bytes; `sampleVcc` is the call to `readVcc`. The constructor
`sleepSec n` (a blocking sleep of `n` seconds) is part of the vocabulary so
the specification's claimed remainder sleep can be stated; the embedded
source never emits it, since its only sleep primitive is the fixed 8-second
`LowPower.powerDown`. -/
inductive Effect where
  | logTime : Effect
  | log : String → Effect
  | logNat : Nat → Effect
  | sleep8 : Effect
  | sleepSec : Nat → Effect
  | scheduleAt : Nat → Effect
  | setLinkCheck : Bool → Effect
  | enqueue : Nat → List Nat → Nat → Nat → Effect
  | sampleVcc : Effect
  deriving DecidableEq, Repr

/-- Whether an effect is a serial-logging effect (purely observational). -/
def Effect.isLog : Effect → Bool
  | .logTime => true
  | .log _ => true
  | .logNat _ => true
  | _ => false

/-- Whether an effect is a blocking sleep (a power-down of any duration). -/
def Effect.isBlockingSleep : Effect → Bool
  | .sleep8 => true
  | .sleepSec _ => true
  | _ => false

/-- Whether an effect is a scheduling action: a blocking sleep or a
timed-callback registration. -/
def Effect.isSchedAction : Effect → Bool
  | .sleep8 => true
  | .sleepSec _ => true
  | .scheduleAt _ => true
  | _ => false

/-- Whether an effect is a call to `LMIC_setLinkCheckMode`. -/
def Effect.isLinkCheckCall : Effect → Bool
  | .setLinkCheck _ => true
  | _ => false

/-- The 20-byte global payload buffer `static uint8_t payload[20];`
(main.cpp line 56), modelled as a function from index to byte value. -/
def Payload := Fin 20 → Nat

/-- The ADC conversion result assembled at main.cpp line 242:
`long result = (high << 8) | low;` with `high` and `low` read from the
8-bit registers `ADCH` and `ADCL` (hence reduced mod 256). -/
def adcResult (high low : Nat) : Nat :=
  ((high % 256) <<< 8) ||| (low % 256)

/-- `readVcc` (main.cpp lines 220-246), as a function of the ADC register
bytes it reads: `result = 1125300L / result;` is an unguarded integer
division, so the embedding returns `none` exactly when the divisor is zero
(C++ division by zero is undefined). -/
def readVcc (high low : Nat) : Option Nat :=
  let result := adcResult high low
  if result = 0 then none else some (1125300 / result)

/-- `do_send` (main.cpp lines 77-104), as a function of the MAC layer's
pending flag `LMIC.opmode & OP_TXRXPEND`, the millivolt value the battery
sampler would return (`readVcc` always returns a positive value, so a `Nat`
input is faithful), and the current payload buffer. Returns the updated
buffer and the effect trace. -/
def do_send (txrxPend : Bool) (mV : Nat) (p : Payload) : Payload × List Effect :=
  if txrxPend then
    (p, [Effect.log "OP_TXRXPEND, not sending"])
  else
    let b0 := (mV >>> 8) &&& 0xFF
    let b1 := mV &&& 0xFF
    let p1 : Payload := Function.update p 0 b0
    let p2 : Payload := Function.update p1 1 b1
    (p2,
      [Effect.sampleVcc,
       Effect.enqueue 1 [p2 0, p2 1] 2 0,
       Effect.log "Packet queued"])

/-- The global mutable state written by `onEvent`: `int times, rest;`
(main.cpp line 59). -/
structure State where
  times : Nat
  rest : Nat
  deriving DecidableEq, Repr

/-- The LMIC event tags dispatched by `onEvent`, plus the `default`
catch-all for an unknown tag. -/
inductive Ev where
  | scanTimeout | beaconFound | beaconMissed | beaconTracked
  | joining | joined | rfu1 | joinFailed | rejoinFailed
  | txComplete | lostTsync | reset | rxComplete | linkDead | linkAlive
  | unknown
  deriving DecidableEq, Repr

/-- The LMIC flags inspected by the `EV_TXCOMPLETE` branch:
`LMIC.txrxFlags & TXRX_ACK` and `LMIC.dataLen`. -/
structure LMICFlags where
  txrxAck : Bool
  dataLen : Nat
  deriving DecidableEq, Repr

/-- `onEvent` (main.cpp lines 106-195): given the global `times`/`rest`
state, the LMIC flags, and the event tag, returns the updated state and the
effect trace. Every branch starts with `Serial.print(os_getTime())` and
`": "` (`logTime`). The `EV_TXCOMPLETE` branch logs the ack flag and the
downlink length, computes `decompose TX_INTERVAL`, runs `times` iterations
of the 8-second power-down loop, and registers the next `do_send` at
`os_getTime() + sec2osticks(rest)`. The `EV_JOINED` branch calls
`LMIC_setLinkCheckMode(0)`. All other branches only log. -/
def onEvent (s : State) (fl : LMICFlags) (ev : Ev) : State × List Effect :=
  match ev with
  | .scanTimeout => (s, [Effect.logTime, Effect.log "EV_SCAN_TIMEOUT"])
  | .beaconFound => (s, [Effect.logTime, Effect.log "EV_BEACON_FOUND"])
  | .beaconMissed => (s, [Effect.logTime, Effect.log "EV_BEACON_MISSED"])
  | .beaconTracked => (s, [Effect.logTime, Effect.log "EV_BEACON_TRACKED"])
  | .joining => (s, [Effect.logTime, Effect.log "EV_JOINING"])
  | .joined =>
    (s, [Effect.logTime, Effect.log "EV_JOINED", Effect.setLinkCheck false])
  | .rfu1 => (s, [Effect.logTime, Effect.log "EV_RFU1"])
  | .joinFailed => (s, [Effect.logTime, Effect.log "EV_JOIN_FAILED"])
  | .rejoinFailed => (s, [Effect.logTime, Effect.log "EV_REJOIN_FAILED"])
  | .txComplete =>
    let ackLog := if fl.txrxAck then [Effect.log "Received ack"] else []
    let dataLog :=
      if fl.dataLen = 0 then []
      else
        [Effect.log "Received ",
         Effect.logNat fl.dataLen,
         Effect.log " bytes of payload"]
    let d := decompose TX_INTERVAL
    ({ times := d.1, rest := d.2 },
      [Effect.logTime,
       Effect.log "EV_TXCOMPLETE (includes waiting for RX windows)"]
      ++ ackLog ++ dataLog
      ++ [Effect.log "Sleeping ",
          Effect.logNat d.1,
          Effect.log " of 8 seconds. Rest: ",
          Effect.logNat d.2]
      ++ List.replicate d.1 Effect.sleep8
      ++ [Effect.scheduleAt d.2])
  | .lostTsync => (s, [Effect.logTime, Effect.log "EV_LOST_TSYNC"])
  | .reset => (s, [Effect.logTime, Effect.log "EV_RESET"])
  | .rxComplete => (s, [Effect.logTime, Effect.log "EV_RXCOMPLETE"])
  | .linkDead => (s, [Effect.logTime, Effect.log "EV_LINK_DEAD"])
  | .linkAlive => (s, [Effect.logTime, Effect.log "EV_LINK_ALIVE"])
  | .unknown => (s, [Effect.logTime, Effect.log "Unknown event"])

/-- The zero-initialized payload buffer: `static uint8_t payload[20];` has
static storage duration, so every byte starts at 0. -/
def payload0 : Payload := fun _ => 0

/-- Helper: recomposing the two transmitted bytes recovers the millivolt
value modulo 2^16. -/
theorem bytes_recompose_mod (mV : Nat) :
    ((mV >>> 8) &&& 0xFF) * 256 + (mV &&& 0xFF) = mV % 65536 := by
  have h1 := Nat.and_pow_two_sub_one_eq_mod (mV >>> 8) 8
  have h2 := Nat.and_pow_two_sub_one_eq_mod mV 8
  have h3 := Nat.shiftRight_eq_div_pow mV 8
  norm_num at h1 h2 h3
  omega

/-- C1: for every non-negative integer interval, the decomposition computed
by the scheduler yields the quotient and remainder by the chunk size 8, and
they recompose to the interval: `whole * chunkSize + remainder = interval`. -/
theorem decompose_div_mod_recompose (interval : Nat) :
    (decompose interval).1 = interval / chunkSize ∧
    (decompose interval).2 = interval % chunkSize ∧
    (decompose interval).1 * chunkSize + (decompose interval).2 = interval := by
  refine ⟨rfl, rfl, ?_⟩
  simp only [decompose, chunkSize]
  omega

/-- C2: calling `do_send` while the MAC layer's transmit/receive-pending
flag is set is a strict no-op: the payload buffer is returned unchanged
(hence unchanged at every index), and the effect trace consists of the
single "not sending" log line, so it contains no `sampleVcc` (the Battery
Sampler is not invoked) and no `enqueue` (no `LMIC_setTxData2` call). -/
theorem do_send_pending_noop (mV : Nat) (p : Payload) :
    do_send true mV p = (p, [Effect.log "OP_TXRXPEND, not sending"]) ∧
    ((do_send true mV p).2.filter fun e => !e.isLog) = [] := by
  exact ⟨rfl, rfl⟩

/-- C3 counterexample: on a concrete Transmit-Complete event (interval 20,
chunk 8, so `whole = 2` and `remainder = 4`), the blocking sleeps performed
are exactly the two 8-second power-downs; no 4-second blocking sleep occurs
anywhere in the trace, contradicting the claimed final blocking sleep of
`remainder` seconds before re-arming. -/
theorem onEvent_txComplete_no_remainder_sleep :
    ((onEvent ⟨0, 0⟩ ⟨false, 0⟩ Ev.txComplete).2.filter
        Effect.isBlockingSleep) = [Effect.sleep8, Effect.sleep8] ∧
    ((onEvent ⟨0, 0⟩ ⟨false, 0⟩ Ev.txComplete).2.filter
        fun e => e == Effect.sleepSec 4) = [] := by
  exact ⟨rfl, rfl⟩

/-- C3 amended: on every Transmit-Complete event the scheduler performs
exactly `whole = TX_INTERVAL / chunkSize` blocking full-chunk sleeps and no
other blocking sleep (in particular no remainder sleep), and then
immediately re-arms the next `do_send` at the current time plus
`remainder = TX_INTERVAL % chunkSize` seconds: the remainder is realized
only as the timed-callback offset, not as a power-down. -/
theorem onEvent_txComplete_sleeps_then_rearm (s : State) (fl : LMICFlags) :
    ((onEvent s fl Ev.txComplete).2.filter fun e => !e.isLog) =
      List.replicate (TX_INTERVAL / chunkSize) Effect.sleep8
        ++ [Effect.scheduleAt (TX_INTERVAL % chunkSize)] ∧
    ((onEvent s fl Ev.txComplete).2.filter Effect.isBlockingSleep) =
      List.replicate (TX_INTERVAL / chunkSize) Effect.sleep8 := by
  by_cases hA : fl.txrxAck <;> by_cases hD : fl.dataLen = 0 <;>
    simp [onEvent, decompose, TX_INTERVAL, chunkSize, hA, hD,
      Effect.isLog, Effect.isBlockingSleep, List.filter]

/-- C4: the Transmit-Complete reaction is independent of the ack flag and
the downlink length: any two flag values produce the same resulting state
and the same non-logging effects, and the re-arming `scheduleAt` is always
present in the trace; the flags influence log lines only. -/
theorem onEvent_txComplete_reschedule_ignores_flags
    (s : State) (fl fl' : LMICFlags) :
    (onEvent s fl Ev.txComplete).1 = (onEvent s fl' Ev.txComplete).1 ∧
    ((onEvent s fl Ev.txComplete).2.filter fun e => !e.isLog) =
      ((onEvent s fl' Ev.txComplete).2.filter fun e => !e.isLog) ∧
    Effect.scheduleAt (TX_INTERVAL % chunkSize) ∈
      (onEvent s fl Ev.txComplete).2 := by
  refine ⟨rfl, ?_, ?_⟩ <;>
    by_cases hA : fl.txrxAck <;> by_cases hD : fl.dataLen = 0 <;>
    by_cases hA' : fl'.txrxAck <;> by_cases hD' : fl'.dataLen = 0 <;>
    simp [onEvent, decompose, TX_INTERVAL, chunkSize, hA, hD, hA', hD',
      Effect.isLog, List.filter]

/-- C5: the payload bytes are a deterministic function of the millivolt
input, written most-significant byte first: for every millivolt value and
every prior buffer contents, byte 0 is the high byte and byte 1 is the low
byte; in particular input 3700 mV yields bytes 0x0E and 0x74. -/
theorem do_send_bytes_big_endian (mV : Nat) (p : Payload) :
    (do_send false mV p).1 0 = (mV >>> 8) &&& 0xFF ∧
    (do_send false mV p).1 1 = mV &&& 0xFF ∧
    (do_send false 3700 p).1 0 = 0x0E ∧
    (do_send false 3700 p).1 1 = 0x74 := by
  refine ⟨?_, ?_, ?_, ?_⟩ <;> simp [do_send, Function.update] <;> rfl

/-- C6: in the non-pending branch of `do_send`, the length handed to
`LMIC_setTxData2` is exactly 2 (the `enqueue` effect carries length 2), and
no byte of the 20-byte buffer beyond index 1 is written. -/
theorem do_send_cursor_discipline (mV : Nat) (p : Payload) :
    (do_send false mV p).2 =
      [Effect.sampleVcc,
       Effect.enqueue 1 [(mV >>> 8) &&& 0xFF, mV &&& 0xFF] 2 0,
       Effect.log "Packet queued"] ∧
    (∀ j : Fin 20, 2 ≤ j.val → (do_send false mV p).1 j = p j) := by
  constructor
  · simp [do_send, Function.update]
  · intro j hj
    have h0 : j ≠ 0 := by
      intro h; rw [h] at hj; simp [Fin.val] at hj
    have h1 : j ≠ 1 := by
      intro h; rw [h] at hj; simp [Fin.val] at hj
    simp [do_send, Function.update, h0, h1]

/-- Witness for C6 at millivolt input 3700, the zero buffer and index 2. -/
theorem do_send_cursor_discipline_witness :
    (do_send false 3700 payload0).2 =
      [Effect.sampleVcc,
       Effect.enqueue 1 [(3700 >>> 8) &&& 0xFF, 3700 &&& 0xFF] 2 0,
       Effect.log "Packet queued"] ∧
    (2 ≤ (2 : Fin 20).val ∧ (do_send false 3700 payload0).1 2 = payload0 2) :=
  ⟨(do_send_cursor_discipline 3700 payload0).1,
   by decide,
   (do_send_cursor_discipline 3700 payload0).2 2 (by decide)⟩

/-- C7: on every Joined event the reactor leaves the state unchanged, makes
exactly one `LMIC_setLinkCheckMode` call with the feature disabled, and
performs no scheduling action (no blocking sleep, no timed-callback
registration). -/
theorem onEvent_joined_linkcheck_once (s : State) (fl : LMICFlags) :
    (onEvent s fl Ev.joined).1 = s ∧
    ((onEvent s fl Ev.joined).2.filter Effect.isLinkCheckCall) =
      [Effect.setLinkCheck false] ∧
    ((onEvent s fl Ev.joined).2.filter Effect.isSchedAction) = [] := by
  exact ⟨rfl, rfl, rfl⟩

/-- C8: on every event other than Transmit-Complete and Joined (the unknown
tag included), the reactor leaves the state unchanged and emits only logging
effects, and invoking it a second time in a row does the same again. -/
theorem onEvent_other_events_noop (s : State) (fl : LMICFlags) (ev : Ev)
    (h1 : ev ≠ Ev.txComplete) (h2 : ev ≠ Ev.joined) :
    (onEvent s fl ev).1 = s ∧
    ((onEvent s fl ev).2.all Effect.isLog) = true ∧
    (onEvent (onEvent s fl ev).1 fl ev).1 = s ∧
    ((onEvent (onEvent s fl ev).1 fl ev).2.all Effect.isLog) = true := by
  cases ev
  case txComplete => exact absurd rfl h1
  case joined => exact absurd rfl h2
  all_goals exact ⟨rfl, rfl, rfl, rfl⟩

/-- Witness for C8 at the unknown event tag. -/
theorem onEvent_other_events_noop_witness :
    ((Ev.unknown ≠ Ev.txComplete) ∧ (Ev.unknown ≠ Ev.joined)) ∧
    (onEvent ⟨0, 0⟩ ⟨false, 0⟩ Ev.unknown).1 = ⟨0, 0⟩ ∧
    ((onEvent ⟨0, 0⟩ ⟨false, 0⟩ Ev.unknown).2.all Effect.isLog) = true ∧
    (onEvent (onEvent ⟨0, 0⟩ ⟨false, 0⟩ Ev.unknown).1 ⟨false, 0⟩
        Ev.unknown).1 = ⟨0, 0⟩ ∧
    ((onEvent (onEvent ⟨0, 0⟩ ⟨false, 0⟩ Ev.unknown).1 ⟨false, 0⟩
        Ev.unknown).2.all Effect.isLog) = true :=
  ⟨⟨by decide, by decide⟩,
   onEvent_other_events_noop ⟨0, 0⟩ ⟨false, 0⟩ Ev.unknown
     (by decide) (by decide)⟩

/-- C9: `readVcc` computes the millivolt value as the unguarded integer
division `1125300 / result`: when the ADC registers both read 0 the divisor
is zero and the division is undefined (`none` in the embedding), and
whenever the conversion result is nonzero `readVcc` totally computes
`1125300 / result`. -/
theorem readVcc_unguarded_division :
    readVcc 0 0 = none ∧
    (∀ high low, adcResult high low ≠ 0 →
      readVcc high low = some (1125300 / adcResult high low)) := by
  constructor
  · rfl
  · intro high low hne
    simp [readVcc, hne]

/-- Witness for C9 at register values high 0, low 1. -/
theorem readVcc_unguarded_division_witness :
    readVcc 0 0 = none ∧
    (adcResult 0 1 ≠ 0 ∧
      readVcc 0 1 = some (1125300 / adcResult 0 1)) :=
  ⟨readVcc_unguarded_division.1,
   by decide,
   readVcc_unguarded_division.2 0 1 (by decide)⟩

/-- C10: the transmitted pair of bytes encodes the millivolt reading modulo
2^16 (recomposing them gives `mV % 65536`); `readVcc` can return a value as
large as 1125300 (at conversion result 1), which exceeds 65536, and the
encoding is faithful exactly under the precondition that the reading is
below 65536. -/
theorem payload_encoding_mod_2_16 (mV : Nat) (p : Payload) :
    ((do_send false mV p).1 0) * 256 + ((do_send false mV p).1 1) =
      mV % 65536 ∧
    readVcc 0 1 = some 1125300 ∧
    65536 ≤ 1125300 ∧
    (mV < 65536 →
      ((do_send false mV p).1 0) * 256 + ((do_send false mV p).1 1) = mV) := by
  have hb0 : (do_send false mV p).1 0 = (mV >>> 8) &&& 0xFF := by
    simp [do_send, Function.update]
  have hb1 : (do_send false mV p).1 1 = mV &&& 0xFF := by
    simp [do_send, Function.update]
  have hmod := bytes_recompose_mod mV
  refine ⟨?_, rfl, by norm_num, ?_⟩
  · rw [hb0, hb1]; exact hmod
  · intro hlt
    rw [hb0, hb1, hmod]
    exact Nat.mod_eq_of_lt hlt

/-- Witness for C10 at readings 70000 (truncated) and 3700 (faithful). -/
theorem payload_encoding_mod_2_16_witness :
    ((do_send false 70000 payload0).1 0) * 256 +
        ((do_send false 70000 payload0).1 1) = 70000 % 65536 ∧
    (3700 < 65536 ∧
      ((do_send false 3700 payload0).1 0) * 256 +
          ((do_send false 3700 payload0).1 1) = 3700) :=
  ⟨(payload_encoding_mod_2_16 70000 payload0).1,
   by decide,
   (payload_encoding_mod_2_16 3700 payload0).2.2.2 (by decide)⟩

end BinSensor
